import Mathlib

/-!
Verification of the resilient paginated query engine of the
product-management repository (Express handlers over PostgreSQL with
in-memory fallbacks).  Each definition is a shallow embedding of a piece
of the JavaScript source; the source file and line ranges are cited in
the doc comments.  JavaScript numbers that may be NaN are modelled as
`Option Int` (`none` = NaN); fallible database round-trips are modelled
with `Except`.
-/

/-! ### JavaScript numeric primitives -/

/-- Decimal digit value of a character. -/
def digitVal (c : Char) : Nat := c.toNat - '0'.toNat

/-- Hexadecimal digit value of a character, if it is one (codes 48-57
are 0-9, codes 97-102 are a-f, codes 65-70 are A-F). -/
def hexVal (c : Char) : Option Nat :=
  let n := c.toNat
  if 48 ≤ n && n ≤ 57 then some (n - 48)
  else if 97 ≤ n && n ≤ 102 then some (n - 87)
  else if 65 ≤ n && n ≤ 70 then some (n - 55)
  else none

/-- Whether a character is a hexadecimal digit. -/
def isHexDigit (c : Char) : Bool := (hexVal c).isSome

/-- Magnitude part of JavaScript `parseInt` (radix auto-detection):
a leading `0x`/`0X` switches to hexadecimal, otherwise the longest
leading run of decimal digits is taken; no digits at all yields NaN
(`none`). -/
def jsParseIntMag (cs : List Char) : Option Nat :=
  match cs with
  | '0' :: 'x' :: rest =>
    let ds := rest.takeWhile isHexDigit
    if ds.isEmpty then none
    else some (ds.foldl (fun a c => a * 16 + ((hexVal c).getD 0)) 0)
  | '0' :: 'X' :: rest =>
    let ds := rest.takeWhile isHexDigit
    if ds.isEmpty then none
    else some (ds.foldl (fun a c => a * 16 + ((hexVal c).getD 0)) 0)
  | _ =>
    let ds := cs.takeWhile Char.isDigit
    if ds.isEmpty then none
    else some (ds.foldl (fun a c => a * 10 + digitVal c) 0)

/-- JavaScript `parseInt(s)`: skip leading whitespace, read an optional
sign, then parse the longest valid digit run.  `none` models NaN. -/
def jsParseInt (s : String) : Option Int :=
  let cs := s.data.dropWhile Char.isWhitespace
  match cs with
  | '-' :: rest => (jsParseIntMag rest).map (fun n => -(n : Int))
  | '+' :: rest => (jsParseIntMag rest).map (fun n => (n : Int))
  | _ => (jsParseIntMag cs).map (fun n => (n : Int))

/-- JavaScript `Math.max` on two possibly-NaN numbers: NaN propagates. -/
def jsMax (a b : Option Int) : Option Int :=
  match a, b with
  | some x, some y => some (max x y)
  | _, _ => none

/-- JavaScript `Math.min` on two possibly-NaN numbers: NaN propagates. -/
def jsMin (a b : Option Int) : Option Int :=
  match a, b with
  | some x, some y => some (min x y)
  | _, _ => none

/-! ### Query normalizer (src/backend/server.js lines 289-307, 578-596,
770-780; the same text recurs in src/unnamed/part_002 and part_003) -/

/-- `const pageNum = Math.max(1, parseInt(page))` with the destructuring
default `page = 1` (server.js line 300).  The request parameter is
`none` when absent. -/
def pageNumOf (page : Option String) : Option Int :=
  jsMax (some 1) (jsParseInt (page.getD "1"))

/-- `const limitNum = Math.min(100, Math.max(1, parseInt(limit)))` with a
destructuring default of `dflt` (10 for products/orders, 20 for
reports; server.js lines 301 and 779). -/
def limitNumOf (dflt : Int) (limit : Option String) : Option Int :=
  jsMin (some 100) (jsMax (some 1) (jsParseInt (limit.getD (toString dflt))))

/-- Sort-field allow-list for products (server.js line 305). -/
def productValidSortFields : List String :=
  ["nombre", "precio", "categoria", "created_at", "stock_total", "id_articulo"]

/-- Sort-field allow-list for orders (server.js line 594). -/
def orderValidSortFields : List String :=
  ["created_at", "total", "cliente_nombre", "estado", "id"]

/-- Sort-field allow-list for the low-stock report (server.js line 818). -/
def lowStockValidSortFields : List String := ["cantidad", "nombre", "sucursal"]

/-- `const sortField = validSortFields.includes(sort_by) ? sort_by : dflt`
with a destructuring default equal to `dflt` (server.js lines 306, 595). -/
def sortFieldOf (valid : List String) (dflt : String) (sortBy : Option String) : String :=
  let sb := sortBy.getD dflt
  if valid.contains sb then sb else dflt

/-- ASCII uppercasing, modelling JavaScript `toUpperCase()`. -/
def strUpper (s : String) : String := String.mk (s.data.map Char.toUpper)

/-- ASCII lowercasing, modelling JavaScript `toLowerCase()` and SQL
`LOWER`. -/
def strLower (s : String) : String := String.mk (s.data.map Char.toLower)

/-- `const sortDirection = sort_order.toUpperCase() === 'DESC' ? 'DESC' :
'ASC'` with destructuring default `dflt` ('ASC' for products, 'DESC'
for orders; server.js lines 307 and 596). -/
def sortOrderOf (dflt : String) (sortOrder : Option String) : String :=
  if strUpper (sortOrder.getD dflt) == "DESC" then "DESC" else "ASC"

/-! ### Pagination metadata (server.js lines 324-327 and 331-342; the
orders handler repeats the same computation at lines 675-693) -/

/-- The `pagination` object of every listing response envelope. -/
structure Pagination where
  current_page : Nat
  total_pages : Nat
  per_page : Nat
  total_items : Nat
  has_next_page : Bool
  has_prev_page : Bool
  next_page : Option Nat
  prev_page : Option Nat
deriving DecidableEq, Repr

/-- `Math.ceil(a / b)` for natural `a` and positive natural `b`. -/
def ceilDiv (a b : Nat) : Nat := (a + b - 1) / b

/-- Assembly of pagination metadata from the normalized page number, the
normalized page size and the total count returned by the count query
(server.js lines 324-327 and 333-341). -/
def mkPagination (pageNum limitNum totalCount : Nat) : Pagination :=
  let totalPages := ceilDiv totalCount limitNum
  { current_page := pageNum
    total_pages := totalPages
    per_page := limitNum
    total_items := totalCount
    has_next_page := pageNum < totalPages
    has_prev_page := 1 < pageNum
    next_page := if pageNum < totalPages then some (pageNum + 1) else none
    prev_page := if 1 < pageNum then some (pageNum - 1) else none }

/-! ### Echoed filters (server.js lines 343-349 and 694-699) -/

/-- The `filters` object echoed in the products listing response. -/
structure ProductFilters where
  search : String
  status : String
  category : String
  sort_by : String
  sort_order : String
deriving DecidableEq, Repr

/-- The `filters` object of `GET /api/products` (server.js lines
343-349): raw search/status/category, but the substituted
`sortField`/`sortDirection`. -/
def productResponseFilters (search status category : String)
    (sortBy sortOrder : Option String) : ProductFilters :=
  { search := search
    status := status
    category := category
    sort_by := sortFieldOf productValidSortFields "nombre" sortBy
    sort_order := sortOrderOf "ASC" sortOrder }

/-- The `filters` object echoed in the orders listing response. -/
structure OrderFilters where
  status : String
  customer : String
  sort_by : String
  sort_order : String
deriving DecidableEq, Repr

/-- The `filters` object of `GET /api/orders` (server.js lines 694-699). -/
def orderResponseFilters (status customer : String)
    (sortBy sortOrder : Option String) : OrderFilters :=
  { status := status
    customer := customer
    sort_by := sortFieldOf orderValidSortFields "created_at" sortBy
    sort_order := sortOrderOf "DESC" sortOrder }

/-! ### Substring and SQL LIKE matching -/

/-- All suffixes of a character list, longest first (used to interpret
the `%` wildcard). -/
def charTails : List Char → List (List Char)
  | [] => [[]]
  | c :: cs => (c :: cs) :: charTails cs

/-- SQL `LIKE` matching: `%` matches any (possibly empty) sequence, `_`
matches exactly one character, any other pattern character matches
itself. -/
def likeMatch : List Char → List Char → Bool
  | [], h => h.isEmpty
  | p :: ps, h =>
    if p == '%' then (charTails h).any (fun t => likeMatch ps t)
    else
      match h with
      | [] => false
      | x :: hs => if p == '_' then likeMatch ps hs else p == x && likeMatch ps hs

/-- SQL `col LIKE pattern`. -/
def sqlLike (pattern s : String) : Bool := likeMatch pattern.data s.data

/-- JavaScript `hay.includes(needle)`: literal substring containment. -/
def strContainsSub (hay needle : String) : Bool :=
  (List.range (hay.data.length + 1)).any (fun i => needle.data.isPrefixOf (hay.data.drop i))

/-- Whether a string contains no SQL wildcard character. -/
def wildcardFree (s : String) : Bool := s.data.all (fun c => !(c == '%') && !(c == '_'))

/-! ### Filter predicates of the two store implementations (C6) -/

/-- The record content both filter predicates inspect: a product's
name, description, category and active flag. -/
structure CProduct where
  name : String
  description : String
  category : String
  active : Bool
deriving DecidableEq, Repr

/-- Row predicate denoted by the relational filter clause of
`getProductsWithPagination` (server.js lines 396-419): the search term
becomes `LOWER(col) LIKE LOWER('%term%')` across nombre, descripcion
and categoria, AND an optional categoria equality, AND an optional
activo equality (`status === 'active'` / `'inactive'`). -/
def relationalProductMatch (search category status : String) (p : CProduct) : Bool :=
  (search == "" ||
    (sqlLike ("%" ++ strLower search ++ "%") (strLower p.name) ||
     sqlLike ("%" ++ strLower search ++ "%") (strLower p.description) ||
     sqlLike ("%" ++ strLower search ++ "%") (strLower p.category))) &&
  (category == "" || p.category == category) &&
  (if status == "active" then p.active
   else if status == "inactive" then !p.active
   else true)

/-- The in-memory filter predicate of `GET /api/products`
(src/unnamed/part_005 lines 108-132, identically part_004 lines
354-367 for the search part): `name.toLowerCase().includes(term)` or
`description && description.toLowerCase().includes(term)`, then the
active/inactive status filter.  The category column is not searched and
no category filter exists. -/
def memoryProductMatch (search status : String) (p : CProduct) : Bool :=
  (search == "" ||
    (strContainsSub (strLower p.name) (strLower search) ||
     (!(p.description == "") && strContainsSub (strLower p.description) (strLower search)))) &&
  (if status == "active" then p.active
   else if status == "inactive" then !p.active
   else true)

/-- The seed product "Mouse Inalámbrico" (src/unnamed/part_005 lines
23-35), projected to the fields the predicates inspect. -/
def mouseSeedProduct : CProduct :=
  { name := "Mouse Inalámbrico"
    description := "Mouse ergonómico con conectividad Bluetooth"
    category := "Electrónicos"
    active := true }

/-! ### JSON values (for comparing response shapes, C5) -/

/-- A serialized response value, as produced by `res.json(...)`.  Only
the shapes the handlers emit are needed: strings, integral numbers,
nulls, arrays and key-ordered objects. -/
inductive RespVal where
  | vstr (s : String)
  | vnum (n : Int)
  | vnull
  | varr (items : List RespVal)
  | vobj (members : List (String × RespVal))

/-- Top-level key list of a serialized object (empty for non-objects). -/
def jsonKeys (v : RespVal) : List String :=
  match v with
  | RespVal.vobj members => members.map (fun kv => kv.1)
  | _ => []

/-- Whether a serialized value is a listing envelope carrying a
`pagination` member (the `Page` shape of the specification). -/
def isPageEnvelope (v : RespVal) : Bool :=
  match v with
  | RespVal.vobj members => members.any (fun kv => kv.1 == "pagination")
  | _ => false

/-! ### The dual-path products listing of src/unnamed/part_004 (C5) -/

/-- An element of `memoryProducts` (src/unnamed/part_004 lines 23-60). -/
structure MemApiProduct where
  id : Int
  name : String
  description : String
  price : Int
  stock : Int
  stock_detail : String
  stock_by_branch : List (String × Int)
  category : String
  branch : String
  created_at : String

/-- JSON serialization of an in-memory product object, with the field
order of the literals at part_004 lines 23-60. -/
def memApiProductJson (p : MemApiProduct) : RespVal :=
  RespVal.vobj
    [("id", RespVal.vnum p.id),
     ("name", RespVal.vstr p.name),
     ("description", RespVal.vstr p.description),
     ("price", RespVal.vnum p.price),
     ("stock", RespVal.vnum p.stock),
     ("stock_detail", RespVal.vstr p.stock_detail),
     ("stock_by_branch", RespVal.vobj (p.stock_by_branch.map (fun kv => (kv.1, RespVal.vnum kv.2)))),
     ("category", RespVal.vstr p.category),
     ("branch", RespVal.vstr p.branch),
     ("created_at", RespVal.vstr p.created_at)]

/-- A row of the relational products query of part_004 lines 321-338:
the SELECT aliases its columns to id, name, description, price,
category, a constant branch 'Principal', stock, stock_detail,
created_at and updated_at. -/
structure DbProductRow where
  id : Int
  name : String
  description : Option String
  price : Int
  category : Option String
  stock : Int
  stock_detail : Option String
  created_at : String
  updated_at : String

/-- JSON serialization of a relational row, keys in SELECT order
(part_004 lines 321-334). -/
def dbProductRowJson (r : DbProductRow) : RespVal :=
  RespVal.vobj
    [("id", RespVal.vnum r.id),
     ("name", RespVal.vstr r.name),
     ("description", match r.description with | some d => RespVal.vstr d | none => RespVal.vnull),
     ("price", RespVal.vnum r.price),
     ("category", match r.category with | some c => RespVal.vstr c | none => RespVal.vnull),
     ("branch", RespVal.vstr "Principal"),
     ("stock", RespVal.vnum r.stock),
     ("stock_detail", match r.stock_detail with | some d => RespVal.vstr d | none => RespVal.vnull),
     ("created_at", RespVal.vstr r.created_at),
     ("updated_at", RespVal.vstr r.updated_at)]

/-- Relational-path response body of `GET /api/products` in part_004:
`res.json(result.rows)` (line 353) — a bare array of rows. -/
def dbProductsResponse (rows : List DbProductRow) : RespVal :=
  RespVal.varr (rows.map dbProductRowJson)

/-- Memory-path search filter of part_004 lines 356-363. -/
def memorySearchFilter (search : String) (ps : List MemApiProduct) : List MemApiProduct :=
  if search == "" then ps
  else ps.filter (fun p =>
    strContainsSub (strLower p.name) (strLower search) ||
    (!(p.description == "") && strContainsSub (strLower p.description) (strLower search)))

/-- Memory-path response body of `GET /api/products` in part_004:
`res.json(filteredProducts)` (line 366) — a bare array of product
objects. -/
def memoryProductsResponse (search : String) (seed : List MemApiProduct) : RespVal :=
  RespVal.varr ((memorySearchFilter search seed).map memApiProductJson)

/-- The `memoryProducts` seed of part_004 lines 23-60 (`created_at` is
`new Date().toISOString()`, passed in as `t`). -/
def memorySeedProducts (t : String) : List MemApiProduct :=
  [{ id := 1, name := "Laptop Dell Inspiron",
     description := "Laptop potente para trabajo y estudio",
     price := 45000, stock := 8,
     stock_detail := "Principal: 5, Higüey: 3",
     stock_by_branch := [("Principal", 5), ("Higüey", 3)],
     category := "Electrónicos", branch := "Principal", created_at := t },
   { id := 2, name := "Mouse Inalámbrico",
     description := "Mouse ergonómico con conectividad Bluetooth",
     price := 1500, stock := 30,
     stock_detail := "Principal: 18, Higüey: 12",
     stock_by_branch := [("Principal", 18), ("Higüey", 12)],
     category := "Electrónicos", branch := "Principal", created_at := t },
   { id := 3, name := "Teclado Mecánico",
     description := "Teclado RGB para gaming",
     price := 3500, stock := 15,
     stock_detail := "Principal: 8, Higüey: 7",
     stock_by_branch := [("Principal", 8), ("Higüey", 7)],
     category := "Electrónicos", branch := "Principal", created_at := t }]

/-- A sample relational row used to evaluate the relational response
shape on concrete data. -/
def sampleDbRow : DbProductRow :=
  { id := 1, name := "Laptop Dell Inspiron",
    description := some "Laptop potente para trabajo y estudio",
    price := 45000, category := some "Electrónicos",
    stock := 8, stock_detail := some "PRINCIPAL: 5, SUCURSAL HIGÜEY: 3",
    created_at := "T", updated_at := "T" }

/-! ### In-memory product store mutations (src/unnamed/part_002,
standalone in-memory server, lines 522-767) -/

/-- A record of the in-memory `products` array (part_002 lines 530-570). -/
structure StoreProduct where
  id : Int
  name : String
  description : String
  price : Int
  stock : Int
  stock_detail : String
  stock_by_branch : List (String × Int)
  category : String
  branch : String
  active : Bool
  created_at : String
  updated_at : Option String
deriving DecidableEq, Repr

/-- The request body consumed by the create/update handlers (part_002
lines 658 and 682): name, description, price, stock, branch, category. -/
structure ProductBody where
  name : String
  description : String
  price : Int
  stock : Int
  branch : String
  category : String
deriving DecidableEq, Repr

/-- `POST /api/products` (part_002 lines 656-678): push a new record
whose id is `Date.now()` (modelled as the input `now`) onto the end of
the array. -/
def createProduct (now : Int) (t : String) (b : ProductBody)
    (products : List StoreProduct) : List StoreProduct :=
  products ++
    [{ id := now
       name := b.name
       description := b.description
       price := b.price
       stock := b.stock
       stock_detail := b.branch ++ ": " ++ toString b.stock
       stock_by_branch := [(b.branch, b.stock)]
       category := b.category
       branch := b.branch
       active := true
       created_at := t
       updated_at := none }]

/-- The object-spread merge of `PUT /api/products/:id` (part_002 lines
691-701): every body field overwrites, the id and active flag are kept. -/
def mergeBody (old : StoreProduct) (t : String) (b : ProductBody) : StoreProduct :=
  { old with
    name := b.name
    description := b.description
    price := b.price
    stock := b.stock
    branch := b.branch
    category := b.category
    updated_at := some t }

/-- `PUT /api/products/:id` (part_002 lines 680-705): `findIndex` on the
id, 404 (`none`) when absent, otherwise replace the record in place by
the spread merge. -/
def updateProduct (pid : Int) (t : String) (b : ProductBody)
    (products : List StoreProduct) : Option (List StoreProduct) :=
  match products.findIdx? (fun p => p.id == pid) with
  | none => none
  | some i =>
    match products[i]? with
    | none => none
    | some old => some (products.set i (mergeBody old t b))

/-- `PATCH /api/products/:id/status` (part_002 lines 708-728): flip the
`active` flag of the record in place. -/
def setProductStatus (pid : Int) (active : Bool) (t : String)
    (products : List StoreProduct) : Option (List StoreProduct) :=
  match products.findIdx? (fun p => p.id == pid) with
  | none => none
  | some i =>
    match products[i]? with
    | none => none
    | some old => some (products.set i { old with active := active, updated_at := some t })

/-- `DELETE /api/products/:id` (part_002 lines 755-767): `findIndex`
then `splice(index, 1)`. -/
def deleteProduct (pid : Int) (products : List StoreProduct) : Option (List StoreProduct) :=
  match products.findIdx? (fun p => p.id == pid) with
  | none => none
  | some i => some (products.eraseIdx i)

/-- The in-memory seed of part_002 lines 530-570 (ids 1, 2, 3;
`created_at` passed in as `t`), restricted to the fields of
`StoreProduct`. -/
def storeSeedProducts (t : String) : List StoreProduct :=
  [{ id := 1, name := "Laptop Dell Inspiron",
     description := "Laptop potente para trabajo y estudio",
     price := 45000, stock := 8,
     stock_detail := "Principal: 5, Higüey: 3",
     stock_by_branch := [("Principal", 5), ("Higüey", 3)],
     category := "Electrónicos", branch := "Principal",
     active := true, created_at := t, updated_at := none },
   { id := 2, name := "Mouse Inalámbrico",
     description := "Mouse ergonómico con conectividad Bluetooth",
     price := 1500, stock := 30,
     stock_detail := "Principal: 18, Higüey: 12",
     stock_by_branch := [("Principal", 18), ("Higüey", 12)],
     category := "Electrónicos", branch := "Principal",
     active := true, created_at := t, updated_at := none },
   { id := 3, name := "Teclado Mecánico",
     description := "Teclado RGB para gaming",
     price := 3500, stock := 15,
     stock_detail := "Principal: 8, Higüey: 7",
     stock_by_branch := [("Principal", 8), ("Higüey", 7)],
     category := "Electrónicos", branch := "Principal",
     active := false, created_at := t, updated_at := none }]

/-- A sample request body for exercising the mutations. -/
def sampleBody : ProductBody :=
  { name := "Monitor 24 pulgadas", description := "Monitor Full HD para oficina",
    price := 12000, stock := 4, branch := "Principal", category := "Electrónicos" }

/-- The store obtained by updating seed product 2 with `sampleBody`. -/
def sampleUpdatedStore : List StoreProduct :=
  (updateProduct 2 "T2" sampleBody (storeSeedProducts "T")).getD []

/-! ### Relational products query with its try/catch (C1) -/

/-- A backend failure raised by a query round-trip. -/
inductive DbFailure where
  | fail
deriving DecidableEq, Repr

/-- A row of the relational products query of server.js lines 368-388. -/
structure PgProductRow where
  id_articulo : Int
  numero_articulo : Option String
  nombre : String
  categoria : Option String
  precio : Int
  descripcion : Option String
  activo : Bool
  stock_total : Int
  stock_por_sucursal : Option String
  created_at : String
  updated_at : String
deriving DecidableEq, Repr

/-- The value returned by `getProductsWithPagination`. -/
structure PagedProducts where
  products : List PgProductRow
  totalCount : Nat
deriving DecidableEq, Repr

/-- `getProductsWithPagination` of server.js lines 358-452 (identically
src/unnamed/part_002 lines 123-215), with the two awaited round-trips
(`executeQuery(countQuery, ...)` and `executeQuery(dataQuery, ...)`)
passed in as `Except` outcomes.  The whole body is wrapped in
`try { ... } catch (error) { return { products: [], totalCount: 0 } }`:
the count query runs first, and any raised failure lands in the catch
block. -/
def getProductsWithPagination (countQueryResult : Except DbFailure Nat)
    (dataQueryResult : Except DbFailure (List PgProductRow)) :
    Except DbFailure PagedProducts :=
  match countQueryResult with
  | Except.error _ => Except.ok { products := [], totalCount := 0 }
  | Except.ok totalCount =>
    match dataQueryResult with
    | Except.error _ => Except.ok { products := [], totalCount := 0 }
    | Except.ok rows => Except.ok { products := rows, totalCount := totalCount }

/-- `Except.isOk` spelled out for the embedding. -/
def exceptIsOk {ε α : Type} : Except ε α → Bool
  | Except.ok _ => true
  | Except.error _ => false

/-! ### The low-stock report query builder (C10; server.js lines
766-825, identically src/unnamed/part_003 lines 1009-1068) -/

/-- A value pushed onto the bind-parameter array of a query. -/
inductive BindParam where
  | str (s : String)
  | int (n : Int)
deriving DecidableEq, Repr

/-- The two query texts and the final bind-parameter list assembled by
the low-stock handler. -/
structure LowStockQueryPlan where
  countQuery : String
  dataQuery : String
  params : List BindParam
deriving DecidableEq, Repr

/-- The template literal assigned to `baseQuery` at server.js lines
783-800. -/
def lowStockBaseText : String :=
  "\n      SELECT \n        p.id_articulo,\n        p.nombre,\n        s.nombre as sucursal,\n        COALESCE(i.cantidad, 0) as cantidad,\n        CASE \n          WHEN COALESCE(i.cantidad, 0) = 0 THEN 'SIN STOCK'\n          WHEN COALESCE(i.cantidad, 0) <= 5 THEN 'STOCK BAJO'\n          WHEN COALESCE(i.cantidad, 0) <= 10 THEN 'STOCK MEDIO'\n          ELSE 'OK'\n        END as estado_stock\n      FROM productos p\n      CROSS JOIN sucursales s\n      LEFT JOIN inventarios i ON p.id_articulo = i.id_articulo AND s.id = i.sucursal_id\n      WHERE p.activo = TRUE AND s.activa = TRUE\n        AND COALESCE(i.cantidad, 0) <= 10\n    "

/-- `GET /api/reports/low-stock` query assembly (server.js lines
783-823): the optional branch filter appends ` AND s.nombre = $1` and
bumps `paramIndex` to 2; the data query is the template literal
`${baseQuery} ORDER BY ${sortField} ${sortDirection} LIMIT
${paramIndex} OFFSET ${paramIndex + 1}` — note the missing `$` before
`{paramIndex}` — after which `limitNum` and `offset` are pushed onto
`params`. -/
def buildLowStockQueries (branch : String) (sortBy sortOrder : Option String)
    (limitNum offset : Int) : LowStockQueryPlan :=
  let start : String × List BindParam × Nat :=
    if branch == "" then (lowStockBaseText, [], 1)
    else (lowStockBaseText ++ " AND s.nombre = $" ++ toString (1 : Nat), [BindParam.str branch], 2)
  let baseQuery := start.1
  let params := start.2.1
  let paramIndex := start.2.2
  let countQuery := "SELECT COUNT(*) as total FROM (" ++ baseQuery ++ ") as counted"
  let sortField := sortFieldOf lowStockValidSortFields "cantidad" sortBy
  let sortDirection := sortOrderOf "ASC" sortOrder
  let dataQuery := baseQuery ++ " ORDER BY " ++ sortField ++ " " ++ sortDirection ++
    " LIMIT " ++ toString paramIndex ++ " OFFSET " ++ toString (paramIndex + 1)
  { countQuery := countQuery
    dataQuery := dataQuery
    params := params ++ [BindParam.int limitNum, BindParam.int offset] }

/-- The key list of every serialized in-memory product object. -/
def memProductKeyList : List String :=
  ["id", "name", "description", "price", "stock", "stock_detail",
   "stock_by_branch", "category", "branch", "created_at"]

/-- The key list of every serialized relational product row. -/
def dbProductRowKeyList : List String :=
  ["id", "name", "description", "price", "category", "branch",
   "stock", "stock_detail", "created_at", "updated_at"]

/-- The per-record key lists of an array-shaped response body. -/
def responseRecordKeySets (v : RespVal) : List (List String) :=
  match v with
  | RespVal.varr items => items.map jsonKeys
  | _ => []

/-! ### Helper lemmas -/

/-- String concatenation acts as concatenation of the underlying
character lists. -/
theorem strDataAppend (a b : String) : (a ++ b).data = a.data ++ b.data := rfl

/-- Writing back the element already stored at an index leaves a list
unchanged. -/
theorem setGetElemSelf {α : Type} : ∀ (l : List α) (i : Nat) (h : i < l.length),
    l.set i (l.get ⟨i, h⟩) = l
  | _ :: _, 0, _ => rfl
  | x :: xs, i + 1, h => by
    simpa using setGetElemSelf xs i (Nat.lt_of_succ_lt_succ h)

/-- The empty list is a member of `charTails`. -/
theorem nilMemCharTails : ∀ (h : List Char), [] ∈ charTails h
  | [] => List.mem_singleton.mpr rfl
  | _ :: cs => List.mem_cons_of_mem _ (nilMemCharTails cs)

/-- Every suffix of a character list occurs in its `charTails`. -/
theorem memCharTailsOfSuffix : ∀ (pre h : List Char), h ∈ charTails (pre ++ h)
  | [], [] => List.mem_singleton.mpr rfl
  | [], _ :: _ => List.mem_cons_self _ _
  | _ :: pre, h => List.mem_cons_of_mem _ (memCharTailsOfSuffix pre h)

/-- A single `%` matches every string. -/
theorem likePercentAll (h : List Char) : likeMatch ['%'] h = true := by
  simp only [likeMatch, beq_self_eq_true, if_true]
  exact List.any_eq_true.mpr ⟨[], nilMemCharTails h, rfl⟩

/-- A leading `%` absorbs any prefix of the subject. -/
theorem likePercentAbsorb (ps pre h : List Char) (hm : likeMatch ps h = true) :
    likeMatch ('%' :: ps) (pre ++ h) = true := by
  simp only [likeMatch, beq_self_eq_true, if_true]
  exact List.any_eq_true.mpr ⟨h, memCharTailsOfSuffix pre h, hm⟩

/-- Matching a wildcard-free literal against itself consumes it. -/
theorem likeLiteralCongr : ∀ (s p h : List Char),
    s.all (fun c => !(c == '%') && !(c == '_')) = true →
    likeMatch (s ++ p) (s ++ h) = likeMatch p h
  | [], p, h, _ => rfl
  | c :: s, p, h, hw => by
    have hc := List.all_eq_true.mp hw c (List.mem_cons_self c s)
    have hcp : (c == '%') = false := by
      cases hbe : c == '%' <;> simp [hbe] at hc ⊢
    have hcu : (c == '_') = false := by
      cases hbe : c == '_' <;> simp [hbe] at hc ⊢
    have hs : s.all (fun c => !(c == '%') && !(c == '_')) = true :=
      List.all_eq_true.mpr (fun x hx => List.all_eq_true.mp hw x (List.mem_cons_of_mem c hx))
    simp only [List.cons_append, likeMatch, hcp, hcu, if_false, beq_self_eq_true, Bool.true_and]
    exact likeLiteralCongr s p h hs

/-- If a wildcard-free needle occurs literally in the subject then the
SQL pattern `%needle%` matches the subject. -/
theorem sqlLikeOfContains (hay needle : String)
    (hw : wildcardFree needle = true) (hc : strContainsSub hay needle = true) :
    sqlLike ("%" ++ needle ++ "%") hay = true := by
  have hdata : ("%" ++ needle ++ "%").data = '%' :: (needle.data ++ ['%']) := by
    simp [strDataAppend]
  unfold sqlLike
  rw [hdata]
  obtain ⟨i, _, hp⟩ := List.any_eq_true.mp hc
  have hpre : needle.data <+: hay.data.drop i := by
    rw [← List.isPrefixOf_iff_prefix]
    exact hp
  obtain ⟨t, ht⟩ := hpre
  have hsplit : hay.data = hay.data.take i ++ (needle.data ++ t) := by
    rw [ht, List.take_append_drop]
  rw [hsplit]
  apply likePercentAbsorb
  rw [likeLiteralCongr needle.data ['%'] t hw]
  exact likePercentAll t

/-! ### C1 -/

/-- C1 (counterexample): when both backend round-trips fail,
`getProductsWithPagination` returns the ordinary value
`{ products: [], totalCount: 0 }` instead of propagating the failure —
the caller cannot observe a backend failure. -/
theorem c1_propagation_counterexample :
    getProductsWithPagination (Except.error DbFailure.fail) (Except.error DbFailure.fail) =
      Except.ok { products := [], totalCount := 0 } ∧
    getProductsWithPagination (Except.error DbFailure.fail) (Except.error DbFailure.fail) ≠
      Except.error DbFailure.fail := by
  exact ⟨rfl, fun h => Except.noConfusion h⟩

/-- C1 (amended): `getProductsWithPagination` never propagates a query
failure; whenever the count query or the data query fails, the failure
is absorbed by the internal catch block and the empty page
`{ products: [], totalCount: 0 }` is returned, indistinguishable from
an empty table. -/
theorem c1_backend_failure_absorbed :
    (∀ (c : Except DbFailure Nat) (d : Except DbFailure (List PgProductRow)),
      exceptIsOk (getProductsWithPagination c d) = true) ∧
    (∀ (c : Except DbFailure Nat) (d : Except DbFailure (List PgProductRow)),
      exceptIsOk c = false ∨ exceptIsOk d = false →
      getProductsWithPagination c d = Except.ok { products := [], totalCount := 0 }) := by
  constructor
  · intro c d
    cases c <;> cases d <;> rfl
  · intro c d h
    cases c with
    | error e => rfl
    | ok n =>
      cases d with
      | error e => rfl
      | ok rows => simp [exceptIsOk] at h

/-- C1 witness: the amended theorem applied to a failing count query
and a successful data query. -/
theorem c1_backend_failure_absorbed_witness :
    getProductsWithPagination (Except.error DbFailure.fail) (Except.ok []) =
      Except.ok { products := [], totalCount := 0 } :=
  c1_backend_failure_absorbed.2 (Except.error DbFailure.fail) (Except.ok []) (Or.inl rfl)

/-! ### C2 -/

/-- C2 (counterexample): a present limit parameter that parses below 1
is clamped to 1, not replaced by the type default, and a non-numeric
limit normalizes to NaN, not to the type default. -/
theorem c2_limit_counterexample :
    limitNumOf 10 (some "0") = some 1 ∧ limitNumOf 10 (some "0") ≠ some 10 ∧
    limitNumOf 20 (some "abc") = none ∧ limitNumOf 20 (some "abc") ≠ some 20 := by
  refine ⟨by decide, by decide, by decide, by decide⟩

/-- C2 (amended): for a present limit parameter that parses to `n` the
normalized limit is `min 100 (max 1 n)` — values above 100 clamp to
100, values below 1 clamp to 1 — independently of the type default;
a non-numeric present parameter yields NaN; the type-specific default
(10 for products/orders, 20 for reports) is used only when the
parameter is absent. -/
theorem c2_limit_normalization :
    (∀ (dflt : Int) (s : String),
      limitNumOf dflt (some s) = (jsParseInt s).map (fun n => min 100 (max 1 n))) ∧
    limitNumOf 10 none = some 10 ∧ limitNumOf 20 none = some 20 := by
  refine ⟨?_, by decide, by decide⟩
  intro dflt s
  cases h : jsParseInt s <;> simp [limitNumOf, jsMin, jsMax, h]

/-! ### C3 -/

/-- C3 (counterexample): a non-numeric page parameter normalizes to NaN
(`Math.max(1, NaN)` is NaN), not to page 1. -/
theorem c3_page_counterexample :
    pageNumOf (some "abc") = none ∧ pageNumOf (some "abc") ≠ some 1 := by
  refine ⟨by decide, by decide⟩

/-- C3 (amended): for a present page parameter that parses to `n` the
normalized page is `max 1 n` (so anything below 1 becomes 1); a
non-numeric present parameter yields NaN rather than 1; an absent
parameter defaults to 1.  The normalization is a total function, so no
input raises an error. -/
theorem c3_page_normalization :
    (∀ (s : String), pageNumOf (some s) = (jsParseInt s).map (fun n => max 1 n)) ∧
    pageNumOf none = some 1 := by
  refine ⟨?_, by decide⟩
  intro s
  cases h : jsParseInt s <;> simp [pageNumOf, jsMax, h]

/-! ### C4 -/

/-- C4 (counterexample): with zero total items and requested page 5 the
envelope still reports `has_prev_page = true`, because the code
computes `has_prev_page` as `pageNum > 1` without consulting the total
count. -/
theorem c4_empty_prev_counterexample :
    (mkPagination 5 10 0).total_items = 0 ∧ (mkPagination 5 10 0).has_prev_page = true := by
  refine ⟨rfl, by decide⟩

/-- C4 (amended): for every normalized page and positive page size,
`total_pages` is exactly the ceiling of `total_items / per_page` (it is
the least number of pages covering all items), and `has_next_page`
holds iff `current_page < total_pages`; when `total_items = 0` the
envelope has `total_pages = 0` and `has_next_page = false`, but
`has_prev_page` equals `1 < page` and is therefore true for every
requested page beyond 1. -/
theorem c4_pagination_invariant :
    ∀ (page limit total : Nat), 1 ≤ limit →
      ((mkPagination page limit total).total_pages =
        ceilDiv (mkPagination page limit total).total_items (mkPagination page limit total).per_page) ∧
      ((mkPagination page limit total).has_next_page = true ↔
        (mkPagination page limit total).current_page < (mkPagination page limit total).total_pages) ∧
      (total ≤ (mkPagination page limit total).total_pages * limit) ∧
      (∀ m : Nat, total ≤ m * limit → (mkPagination page limit total).total_pages ≤ m) ∧
      (total = 0 → (mkPagination page limit total).total_pages = 0 ∧
        (mkPagination page limit total).has_next_page = false ∧
        (mkPagination page limit total).has_prev_page = decide (1 < page)) := by
  intro page limit total hl
  have h0 : 0 < limit := hl
  refine ⟨rfl, by simp [mkPagination], ?_, ?_, ?_⟩
  · show total ≤ (total + limit - 1) / limit * limit
    have hdm := Nat.div_add_mod (total + limit - 1) limit
    have hmod : (total + limit - 1) % limit < limit := Nat.mod_lt _ h0
    rw [Nat.mul_comm]
    omega
  · intro m hm
    show (total + limit - 1) / limit ≤ m
    rw [Nat.div_le_iff_le_mul_add_pred h0]
    rw [Nat.mul_comm] at hm
    omega
  · intro ht
    subst ht
    have hz : (0 + limit - 1) / limit = 0 := Nat.div_eq_of_lt (by omega)
    refine ⟨hz, ?_, rfl⟩
    show decide (page < (0 + limit - 1) / limit) = false
    rw [hz]
    simp

/-- C4 witness: the amended theorem applied to page 5, page size 10 and
an empty result set. -/
theorem c4_pagination_invariant_witness :
    (mkPagination 5 10 0).total_pages = 0 ∧ (mkPagination 5 10 0).has_next_page = false :=
  ⟨((c4_pagination_invariant 5 10 0 (by decide)).2.2.2.2 rfl).1,
   ((c4_pagination_invariant 5 10 0 (by decide)).2.2.2.2 rfl).2.1⟩

/-! ### C5 -/

/-- C5 (counterexample): in the dual-path variant (part_004), forcing
the in-memory path to answer the listing yields a bare JSON array — not
a Page envelope with pagination metadata — and its record key sets
differ from those of the relational path, so the caller can tell which
implementation answered. -/
theorem c5_page_shape_counterexample :
    isPageEnvelope (memoryProductsResponse "" (memorySeedProducts "T")) = false ∧
    isPageEnvelope (dbProductsResponse [sampleDbRow]) = false ∧
    (responseRecordKeySets (memoryProductsResponse "" (memorySeedProducts "T"))).headD [] ≠
      (responseRecordKeySets (dbProductsResponse [sampleDbRow])).headD [] := by
  refine ⟨rfl, rfl, by decide⟩

/-- C5 (amended): in the variant holding both store implementations
(part_004), the products listing returns a bare array of records on
both paths, never a Page envelope; every relational record carries the
key set id, name, description, price, category, branch, stock,
stock_detail, created_at, updated_at while every in-memory record
carries id, name, description, price, stock, stock_detail,
stock_by_branch, category, branch, created_at — the two shapes differ
(stock_by_branch versus updated_at), so the two paths are
distinguishable by shape. -/
theorem c5_response_shape :
    (∀ (rows : List DbProductRow), isPageEnvelope (dbProductsResponse rows) = false) ∧
    (∀ (search : String) (seed : List MemApiProduct),
      isPageEnvelope (memoryProductsResponse search seed) = false) ∧
    (∀ (r : DbProductRow), jsonKeys (dbProductRowJson r) = dbProductRowKeyList) ∧
    (∀ (p : MemApiProduct), jsonKeys (memApiProductJson p) = memProductKeyList) ∧
    memProductKeyList ≠ dbProductRowKeyList := by
  refine ⟨fun rows => rfl, fun search seed => rfl, fun r => rfl, fun p => rfl, by decide⟩

/-! ### C6 -/

/-- C6 (counterexample): the search term "electr" occurs in the seed
product's category "Electrónicos" but in neither its name nor its
description, so the relational predicate matches the product while the
in-memory predicate does not. -/
theorem c6_predicate_counterexample :
    relationalProductMatch "electr" "" "" mouseSeedProduct = true ∧
    memoryProductMatch "electr" "" mouseSeedProduct = false := by
  refine ⟨by decide, by decide⟩

/-- C6 (amended): the in-memory filter searches only the name and
description columns (the relational filter also searches the category
column and supports a category-equality filter the in-memory path
lacks), so for wildcard-free search terms the in-memory predicate only
implies the relational predicate with no category filter; the two
predicates are not equal. -/
theorem c6_memory_implies_relational :
    ∀ (search status : String) (p : CProduct),
      wildcardFree (strLower search) = true →
      memoryProductMatch search status p = true →
      relationalProductMatch search "" status p = true := by
  intro search status p hw hm
  unfold memoryProductMatch at hm
  unfold relationalProductMatch
  rw [Bool.and_eq_true] at hm
  obtain ⟨hsearch, hstatus⟩ := hm
  cases hse : (search == "" : Bool) with
  | true =>
    simp only [hse, Bool.true_or, Bool.true_and]
    simp only [show (("" : String) == "") = true from rfl, Bool.true_or, Bool.true_and]
    exact hstatus
  | false =>
    simp only [hse, Bool.false_or] at hsearch
    simp only [hse, Bool.false_or]
    simp only [show (("" : String) == "") = true from rfl, Bool.true_or, Bool.and_true]
    refine Bool.and_eq_true_iff.mpr ⟨?_, hstatus⟩
    rcases Bool.or_eq_true_iff.mp hsearch with hn | hd
    · exact Bool.or_eq_true_iff.mpr
        (Or.inl (Bool.or_eq_true_iff.mpr (Or.inl (sqlLikeOfContains _ _ hw hn))))
    · obtain ⟨-, hdc⟩ := Bool.and_eq_true_iff.mp hd
      exact Bool.or_eq_true_iff.mpr
        (Or.inl (Bool.or_eq_true_iff.mpr (Or.inr (sqlLikeOfContains _ _ hw hdc))))

/-- C6 witness: the amended theorem applied to the search term "mouse",
the empty status filter and the seed product. -/
theorem c6_memory_implies_relational_witness :
    relationalProductMatch "mouse" "" "" mouseSeedProduct = true :=
  c6_memory_implies_relational "mouse" "" mouseSeedProduct (by decide) (by decide)

/-! ### C7 -/

/-- C7 (confirmed): a sort_by input outside the per-type allow-list is
replaced by the type default (nombre for products, created_at for
orders), and the filters object echoed in the response carries the
substituted field, not the raw input. -/
theorem c7_sort_field_substitution :
    ∀ (raw search status category customer : String) (sortOrder : Option String),
      (productValidSortFields.contains raw = false →
        sortFieldOf productValidSortFields "nombre" (some raw) = "nombre" ∧
        (productResponseFilters search status category (some raw) sortOrder).sort_by = "nombre") ∧
      (orderValidSortFields.contains raw = false →
        sortFieldOf orderValidSortFields "created_at" (some raw) = "created_at" ∧
        (orderResponseFilters status customer (some raw) sortOrder).sort_by = "created_at") := by
  intro raw search status category customer sortOrder
  constructor
  · intro h
    constructor
    · simp only [sortFieldOf, Option.getD_some, h, Bool.false_eq_true, if_false]
    · simp only [productResponseFilters, sortFieldOf, Option.getD_some, h,
        Bool.false_eq_true, if_false]
  · intro h
    constructor
    · simp only [sortFieldOf, Option.getD_some, h, Bool.false_eq_true, if_false]
    · simp only [orderResponseFilters, sortFieldOf, Option.getD_some, h,
        Bool.false_eq_true, if_false]

/-- C7 witness: the theorem applied to the raw input "price", which is
in neither allow-list. -/
theorem c7_sort_field_substitution_witness :
    (productResponseFilters "" "" "" (some "price") none).sort_by = "nombre" ∧
    (orderResponseFilters "" "" (some "price") none).sort_by = "created_at" :=
  ⟨((c7_sort_field_substitution "price" "" "" "" "" none).1 (by decide)).2,
   ((c7_sort_field_substitution "price" "" "" "" "" none).2 (by decide)).2⟩

/-! ### C8 -/

/-- C8 (counterexample): on the orders endpoint an input matching
neither ASC nor DESC normalizes to ASC, not to the endpoint's DESC
default. -/
theorem c8_orders_default_counterexample :
    sortOrderOf "DESC" (some "sideways") = "ASC" ∧ ("ASC" : String) ≠ "DESC" := by
  refine ⟨by decide, by decide⟩

/-- C8 (amended): the normalization only tests case-insensitively for
DESC: any present input whose uppercasing is DESC yields DESC and
every other present input yields ASC on both endpoints — the orders
endpoint's DESC default applies only when the parameter is absent. -/
theorem c8_sort_order_normalization :
    (∀ (s : String), strUpper s ≠ "DESC" →
      sortOrderOf "ASC" (some s) = "ASC" ∧ sortOrderOf "DESC" (some s) = "ASC") ∧
    (∀ (s : String), strUpper s = "DESC" →
      sortOrderOf "ASC" (some s) = "DESC" ∧ sortOrderOf "DESC" (some s) = "DESC") ∧
    sortOrderOf "ASC" none = "ASC" ∧ sortOrderOf "DESC" none = "DESC" := by
  refine ⟨?_, ?_, by decide, by decide⟩
  · intro s h
    have hb : (strUpper s == "DESC") = false := beq_eq_false_iff_ne.mpr h
    exact ⟨by simp [sortOrderOf, hb], by simp [sortOrderOf, hb]⟩
  · intro s h
    have hb : (strUpper s == "DESC") = true := beq_iff_eq.mpr h
    exact ⟨by simp [sortOrderOf, hb], by simp [sortOrderOf, hb]⟩

/-- C8 witness: the amended theorem applied to the input "random"
(uppercasing "RANDOM") and to the input "desc" (uppercasing "DESC"). -/
theorem c8_sort_order_normalization_witness :
    sortOrderOf "ASC" (some "random") = "ASC" ∧ sortOrderOf "DESC" (some "desc") = "DESC" :=
  ⟨((c8_sort_order_normalization.1 "random") (by decide)).1,
   ((c8_sort_order_normalization.2.1 "desc") (by decide)).2⟩

/-! ### C9 -/

/-- Replacing a list element with one carrying the same id leaves the id
sequence unchanged. -/
theorem mapIdSetPreserve (ps : List StoreProduct) (i : Nat) (q old : StoreProduct)
    (hq : q.id = old.id) (hget : ps[i]? = some old) :
    (ps.set i q).map (fun p => p.id) = ps.map (fun p => p.id) := by
  obtain ⟨hi, hv⟩ := List.getElem?_eq_some_iff.mp hget
  rw [List.map_set]
  have hmi : i < (ps.map (fun p => p.id)).length := by simpa using hi
  have hval : q.id = (ps.map (fun p => p.id)).get ⟨i, hmi⟩ := by
    simp [List.get_eq_getElem, hq, ← hv]
  rw [hval]
  exact setGetElemSelf _ i hmi

/-- C9 (counterexample): creating a product whose `Date.now()` value
equals an existing identifier (the seed already holds id 3) yields a
duplicated identifier — the create mutation does not preserve
uniqueness unconditionally. -/
theorem c9_duplicate_id_counterexample :
    ((createProduct 3 "T2" sampleBody (storeSeedProducts "T")).map (fun p => p.id)) = [1, 2, 3, 3] ∧
    ¬ ((createProduct 3 "T2" sampleBody (storeSeedProducts "T")).map (fun p => p.id)).Nodup := by
  refine ⟨by decide, by decide⟩

/-- C9 (amended): created records are appended at the end; update and
status-change keep every record at its position with its identifier, so
they preserve identifier uniqueness; delete removes one record, and
uniqueness survives; creation preserves identifier uniqueness only when
the creation timestamp differs from every existing identifier — two
creations in the same millisecond (or a timestamp colliding with an
existing id) violate it. -/
theorem c9_mutation_invariants :
    (∀ (now : Int) (t : String) (b : ProductBody) (ps : List StoreProduct),
      (createProduct now t b ps).map (fun p => p.id) = ps.map (fun p => p.id) ++ [now]) ∧
    (∀ (now : Int) (t : String) (b : ProductBody) (ps : List StoreProduct),
      (ps.map (fun p => p.id)).Nodup → (∀ p ∈ ps, p.id ≠ now) →
      ((createProduct now t b ps).map (fun p => p.id)).Nodup) ∧
    (∀ (pid : Int) (t : String) (b : ProductBody) (ps ps' : List StoreProduct),
      updateProduct pid t b ps = some ps' →
      ps'.map (fun p => p.id) = ps.map (fun p => p.id)) ∧
    (∀ (pid : Int) (active : Bool) (t : String) (ps ps' : List StoreProduct),
      setProductStatus pid active t ps = some ps' →
      ps'.map (fun p => p.id) = ps.map (fun p => p.id)) ∧
    (∀ (pid : Int) (ps ps' : List StoreProduct),
      deleteProduct pid ps = some ps' →
      List.Sublist (ps'.map (fun p => p.id)) (ps.map (fun p => p.id)) ∧
      ((ps.map (fun p => p.id)).Nodup → (ps'.map (fun p => p.id)).Nodup)) := by
  refine ⟨?_, ?_, ?_, ?_, ?_⟩
  · intro now t b ps
    simp [createProduct]
  · intro now t b ps hN hF
    have : (createProduct now t b ps).map (fun p => p.id) = ps.map (fun p => p.id) ++ [now] := by
      simp [createProduct]
    rw [this, List.nodup_append]
    refine ⟨hN, List.nodup_singleton _, ?_⟩
    intro x hx hx1
    obtain ⟨p, hp, hpid⟩ := List.mem_map.mp hx
    rw [List.mem_singleton] at hx1
    exact hF p hp (hpid.trans hx1)
  · intro pid t b ps ps' h
    unfold updateProduct at h
    cases hidx : ps.findIdx? (fun p => p.id == pid) with
    | none => simp only [hidx] at h; exact Option.noConfusion h
    | some i =>
      simp only [hidx] at h
      cases hget : ps[i]? with
      | none => simp only [hget] at h; exact Option.noConfusion h
      | some old =>
        simp only [hget, Option.some.injEq] at h
        subst h
        exact mapIdSetPreserve ps i (mergeBody old t b) old rfl hget
  · intro pid active t ps ps' h
    unfold setProductStatus at h
    cases hidx : ps.findIdx? (fun p => p.id == pid) with
    | none => simp only [hidx] at h; exact Option.noConfusion h
    | some i =>
      simp only [hidx] at h
      cases hget : ps[i]? with
      | none => simp only [hget] at h; exact Option.noConfusion h
      | some old =>
        simp only [hget, Option.some.injEq] at h
        subst h
        exact mapIdSetPreserve ps i { old with active := active, updated_at := some t } old rfl hget
  · intro pid ps ps' h
    unfold deleteProduct at h
    cases hidx : ps.findIdx? (fun p => p.id == pid) with
    | none => simp only [hidx] at h; exact Option.noConfusion h
    | some i =>
      simp only [hidx, Option.some.injEq] at h
      subst h
      refine ⟨(List.eraseIdx_sublist ps i).map _, ?_⟩
      intro hN
      exact hN.sublist ((List.eraseIdx_sublist ps i).map _)

/-- C9 witness: the amended theorem applied to the part_002 seed — a
create with the fresh timestamp 99 keeps identifiers unique, and an
update of seed product 2 keeps the id sequence [1, 2, 3]. -/
theorem c9_mutation_invariants_witness :
    ((createProduct 99 "T2" sampleBody (storeSeedProducts "T")).map (fun p => p.id)).Nodup ∧
    sampleUpdatedStore.map (fun p => p.id) = (storeSeedProducts "T").map (fun p => p.id) :=
  ⟨c9_mutation_invariants.2.1 99 "T2" sampleBody (storeSeedProducts "T") (by decide) (by decide),
   c9_mutation_invariants.2.2.1 2 "T2" sampleBody (storeSeedProducts "T") sampleUpdatedStore
     (by decide)⟩

/-! ### C10 -/

/-- C10 (confirmed): the low-stock data query embeds the literal value
of the parameter counter as its LIMIT and OFFSET — the text ends in
"LIMIT 1 OFFSET 2" without a branch filter and in "LIMIT 2 OFFSET 3"
with one, is identical for every requested page size and offset, and
the normalized limit and offset are still pushed onto the
bind-parameter list that the query text never references. -/
theorem c10_literal_limit_offset :
    ∀ (b : String) (sb so : Option String) (l o l2 o2 : Int),
      ((buildLowStockQueries "" sb so l o).dataQuery =
        (buildLowStockQueries "" sb so l2 o2).dataQuery) ∧
      (∃ pre, (buildLowStockQueries "" sb so l o).dataQuery = pre ++ " LIMIT 1 OFFSET 2") ∧
      ((buildLowStockQueries "" sb so l o).params = [BindParam.int l, BindParam.int o]) ∧
      (b ≠ "" →
        ((buildLowStockQueries b sb so l o).dataQuery =
          (buildLowStockQueries b sb so l2 o2).dataQuery) ∧
        (∃ pre, (buildLowStockQueries b sb so l o).dataQuery = pre ++ " LIMIT 2 OFFSET 3") ∧
        ((buildLowStockQueries b sb so l o).params =
          [BindParam.str b, BindParam.int l, BindParam.int o])) := by
  intro b sb so l o l2 o2
  refine ⟨rfl, ?_, rfl, ?_⟩
  · refine ⟨lowStockBaseText ++ " ORDER BY " ++ sortFieldOf lowStockValidSortFields "cantidad" sb ++
      " " ++ sortOrderOf "ASC" so, ?_⟩
    show lowStockBaseText ++ " ORDER BY " ++ _ ++ " " ++ _ ++ " LIMIT " ++ toString (1 : Nat) ++
      " OFFSET " ++ toString ((1 : Nat) + 1) = _
    simp only [String.append_assoc]
    rfl
  · intro hb
    have hbf : (b == "") = false := beq_eq_false_iff_ne.mpr hb
    refine ⟨?_, ?_, ?_⟩
    · simp only [buildLowStockQueries, hbf, Bool.false_eq_true, if_false]
    · refine ⟨lowStockBaseText ++ " AND s.nombre = $" ++ toString (1 : Nat) ++ " ORDER BY " ++
        sortFieldOf lowStockValidSortFields "cantidad" sb ++ " " ++ sortOrderOf "ASC" so, ?_⟩
      simp only [buildLowStockQueries, hbf, Bool.false_eq_true, if_false]
      simp only [String.append_assoc]
      rfl
    · simp only [buildLowStockQueries, hbf, Bool.false_eq_true, if_false]
      rfl

/-- C10 witness: the theorem applied to the branch filter "PRINCIPAL"
with page size 50 and offset 100. -/
theorem c10_literal_limit_offset_witness :
    (buildLowStockQueries "PRINCIPAL" none none 50 100).params =
      [BindParam.str "PRINCIPAL", BindParam.int 50, BindParam.int 100] :=
  ((c10_literal_limit_offset "PRINCIPAL" none none 50 100 0 0).2.2.2 (by decide)).2.2
